import Mathlib

/-!
Shallow embedding of `Libraries/CustomComponents/Lists/ViewabilityHelper.js`.

JavaScript numbers are modelled as exact rationals (`ℚ`); the one place where
IEEE special values matter (division by zero producing `NaN`/`Infinity` inside
the percent comparison) is modelled explicitly in `jsPercentGE`.  JS `Map`s are
modelled as insertion-ordered association lists with `Map.set` replace-in-place
semantics.  `Date.now()` and `setTimeout` are impure, so the current time and a
fresh timer handle are passed to `onUpdate` as explicit arguments and the
scheduling of a deferred finalize is reported in the returned `UpdateEffect`.
Exceptions thrown by `invariant(...)` are modelled with `Except String`; since
a JS exception thrown mid-method leaves already-performed field assignments in
place, `onUpdate` returns the (possibly mutated) state alongside the
`Except`-valued outcome.
-/

/-- Per-index geometry `{length: number, offset: number}` along the scroll axis. -/
structure FrameMetrics where
  length : ℚ
  offset : ℚ
deriving DecidableEq

/-- The `scrollInteractionFilter` configuration record: both fields optional. -/
structure ScrollInteractionFilter where
  minimumOffset : Option ℚ
  minimumElapsed : Option ℚ
deriving DecidableEq

/-- The `ViewabilityConfig` exact object type: every key optional. -/
structure ViewabilityConfig where
  minimumViewTime : Option ℚ := none
  viewAreaCoveragePercentThreshold : Option ℚ := none
  itemVisiblePercentThreshold : Option ℚ := none
  waitForInteraction : Option Bool := none
  scrollInteractionFilter : Option ScrollInteractionFilter := none
deriving DecidableEq

/-- `onUpdate` reads `this._config.minViewTime`.  `ViewabilityConfig` is an
exact (sealed) Flow object type whose only time-related key is
`minimumViewTime`; no code path ever writes a `minViewTime` property, so this
property access always evaluates to `undefined` (modelled as `none`),
regardless of what `minimumViewTime` was configured to. -/
def ViewabilityConfig.minViewTime (_ : ViewabilityConfig) : Option ℚ := none

/-- `ViewToken`: application payload with a stable `key` and a viewability flag
(the `item`/`section` payload fields are irrelevant to the tracker and
represented by the retained `index`). -/
structure ViewToken where
  key : String
  index : Option Nat
  isViewable : Bool
deriving DecidableEq

/-- Optional `{first, last}` render-range hint for `computeViewableItems`. -/
structure RenderRange where
  first : Nat
  last : Nat
deriving DecidableEq

/-- The argument object of `onViewableItemsChanged`. -/
structure ChangePayload where
  viewableItems : List ViewToken
  changed : List ViewToken
deriving DecidableEq

/-- Observable outcome of one `onUpdate` call. -/
inductive UpdateEffect where
  /-- Gated by `waitForInteraction`: returned before scanning. -/
  | suppressed
  /-- The freshly computed index sequence equals `_viewableIndices`: returned
  without committing a timestamp, scheduling a timer or notifying. -/
  | noChange
  /-- `setTimeout` was invoked: a deferred `_onUpdateSync` over `indices` was
  scheduled after `delay` ms under timer `handle`. -/
  | scheduled (handle : Nat) (delay : ℚ) (indices : List Nat)
  /-- `_onUpdateSync` ran synchronously; `payload` is the argument passed to
  `onViewableItemsChanged`, or `none` when the change list was empty and no
  callback fired. -/
  | fired (payload : Option ChangePayload)
deriving DecidableEq

/-- Mutable instance state of the `ViewabilityHelper` class. -/
structure ViewabilityHelper where
  _config : ViewabilityConfig
  _hasInteracted : Bool := false
  _lastUpdateTime : ℚ := 0
  _timers : List Nat := []
  _viewableIndices : List Nat := []
  _viewableItems : List (String × ViewToken) := []
deriving DecidableEq

/-- `_isEntirelyVisible(top, bottom, viewportHeight)`. -/
def _isEntirelyVisible (top bottom viewportHeight : ℚ) : Bool :=
  decide (top ≥ 0 ∧ bottom ≤ viewportHeight ∧ bottom > top)

/-- `_getPixelsVisible(top, bottom, viewportHeight)`. -/
def _getPixelsVisible (top bottom viewportHeight : ℚ) : ℚ :=
  max 0 (min bottom viewportHeight - max top 0)

/-- JS evaluation of `100 * (pixels / denom) >= threshold`.  When `denom = 0`,
JS float division yields `NaN` (if `pixels = 0`) or `±Infinity`; `NaN >= t` is
false, `+Infinity >= t` is true and `-Infinity >= t` is false for every finite
threshold.  For `denom ≠ 0` the comparison is exact rational arithmetic. -/
def jsPercentGE (pixels denom threshold : ℚ) : Bool :=
  if denom = 0 then
    if pixels = 0 then false
    else decide (0 < pixels)
  else decide (100 * (pixels / denom) ≥ threshold)

/-- `_isViewable(viewAreaMode, viewablePercentThreshold, top, bottom,
viewportHeight, itemLength)`. -/
def _isViewable (viewAreaMode : Bool) (viewablePercentThreshold top bottom viewportHeight itemLength : ℚ) :
    Bool :=
  if _isEntirelyVisible top bottom viewportHeight then
    true
  else
    jsPercentGE (_getPixelsVisible top bottom viewportHeight)
      (if viewAreaMode then viewportHeight else itemLength)
      viewablePercentThreshold

/-- `top = metrics.offset - scrollOffset` inside the scan loop. -/
def itemTop (scrollOffset : ℚ) (m : FrameMetrics) : ℚ :=
  m.offset - scrollOffset

/-- `bottom = top + metrics.length` inside the scan loop. -/
def itemBottom (scrollOffset : ℚ) (m : FrameMetrics) : ℚ :=
  itemTop scrollOffset m + m.length

/-- The loop's overlap test `(top < viewportHeight) && (bottom > 0)`. -/
def overlapsViewport (scrollOffset viewportHeight : ℚ) (m : FrameMetrics) : Bool :=
  decide (itemTop scrollOffset m < viewportHeight ∧ itemBottom scrollOffset m > 0)

/-- The ascending index list `[first, first+1, ..., first+count-1]` visited by
`for (let idx = first; idx <= last; idx++)` (with `count = last + 1 - first`). -/
def idxRange (first : Nat) : Nat → List Nat
  | 0 => []
  | n + 1 => first :: idxRange (first + 1) n

section Scan

variable (viewAreaMode : Bool) (viewablePercentThreshold scrollOffset viewportHeight : ℚ)
variable (getFrameMetrics : Nat → Option FrameMetrics)

/-- The body of the `computeViewableItems` scan loop: walks the remaining
indices carrying the `firstVisible` variable (initially `-1`, set to the index
whenever an item overlaps the viewport); breaks when a measured item no longer
overlaps after `firstVisible >= 0`, skips unmeasured items, and collects the
indices that pass `_isViewable`. -/
def scanViewable : List Nat → Int → List Nat
  | [], _ => []
  | idx :: rest, firstVisible =>
    match getFrameMetrics idx with
    | none => scanViewable rest firstVisible
    | some m =>
      if overlapsViewport scrollOffset viewportHeight m then
        if _isViewable viewAreaMode viewablePercentThreshold
            (itemTop scrollOffset m) (itemBottom scrollOffset m) viewportHeight m.length then
          idx :: scanViewable rest (Int.ofNat idx)
        else
          scanViewable rest (Int.ofNat idx)
      else
        if 0 ≤ firstVisible then [] else scanViewable rest firstVisible

end Scan

/-- Message of the threshold invariant in `computeViewableItems`. -/
def thresholdErrMsg : String :=
  "Must set exactly one of itemVisiblePercentThreshold or viewAreaCoveragePercentThreshold"

/-- Message of the render-range invariant in `computeViewableItems` (the JS
message also stringifies the offending range). -/
def rangeErrMsg : String := "Invalid render range"

/-- `viewAreaMode = viewAreaCoveragePercentThreshold != null`. -/
def configViewAreaMode (c : ViewabilityConfig) : Bool :=
  c.viewAreaCoveragePercentThreshold.isSome

/-- The `viewablePercentThreshold` selected by `computeViewableItems`
(`0` only in the unreachable case where the selected threshold is absent,
which the invariant rejects first). -/
def configThreshold (c : ViewabilityConfig) : ℚ :=
  (if configViewAreaMode c then c.viewAreaCoveragePercentThreshold
   else c.itemVisiblePercentThreshold).getD 0

/-- The spec's "exactly one of the two percent thresholds is set". -/
def exactlyOneThreshold (c : ViewabilityConfig) : Bool :=
  c.itemVisiblePercentThreshold.isSome != c.viewAreaCoveragePercentThreshold.isSome

/-- `computeViewableItems(itemCount, scrollOffset, viewportHeight,
getFrameMetrics, renderRange)`; the config comes from `this._config`. -/
def ViewabilityHelper.computeViewableItems (config : ViewabilityConfig) (itemCount : Nat)
    (scrollOffset viewportHeight : ℚ) (getFrameMetrics : Nat → Option FrameMetrics)
    (renderRange : Option RenderRange) : Except String (List Nat) :=
  let viewAreaMode := config.viewAreaCoveragePercentThreshold.isSome
  let viewablePercentThreshold :=
    if viewAreaMode then config.viewAreaCoveragePercentThreshold
    else config.itemVisiblePercentThreshold
  if !(viewablePercentThreshold.isSome &&
       (config.itemVisiblePercentThreshold.isSome != config.viewAreaCoveragePercentThreshold.isSome)) then
    .error thresholdErrMsg
  else if itemCount = 0 then
    .ok []
  else
    let r := renderRange.getD ⟨0, itemCount - 1⟩
    if !(decide (r.last < itemCount)) then
      .error rangeErrMsg
    else
      .ok (scanViewable viewAreaMode (viewablePercentThreshold.getD 0) scrollOffset viewportHeight
        getFrameMetrics (idxRange r.first (r.last + 1 - r.first)) (-1))

/-- `constructor(config = {viewAreaCoveragePercentThreshold: 0})`: checks only
the `scrollInteractionFilter`/`waitForInteraction` invariant, then stores the
config on a freshly initialised instance. -/
def ViewabilityHelper.construct (configArg : Option ViewabilityConfig) :
    Except String ViewabilityHelper :=
  let config := configArg.getD { viewAreaCoveragePercentThreshold := some 0 }
  if !(config.scrollInteractionFilter = none || config.waitForInteraction = some true) then
    .error "scrollInteractionFilter only works in conjunction with waitForInteraction"
  else
    .ok { _config := config }

/-- `recordInteraction()`: latches `_hasInteracted` unconditionally. -/
def ViewabilityHelper.recordInteraction (st : ViewabilityHelper) : ViewabilityHelper :=
  { st with _hasInteracted := true }

/-- JS `Map.prototype.has` over the association-list model. -/
def mapHas (m : List (String × ViewToken)) (k : String) : Bool :=
  m.any (fun kv => kv.1 = k)

/-- JS `Map.prototype.set`: replaces the value in place when the key exists,
otherwise appends at the end (insertion order preserved). -/
def jsMapSet (m : List (String × ViewToken)) (k : String) (v : ViewToken) :
    List (String × ViewToken) :=
  if mapHas m k then m.map (fun kv => if kv.1 = k then (k, v) else kv)
  else m ++ [(k, v)]

/-- `new Map(pairs)`: successive `Map.set` over the pair list. -/
def jsMapOfList (l : List (String × ViewToken)) : List (String × ViewToken) :=
  l.foldl (fun m kv => jsMapSet m kv.1 kv.2) []

/-- The `nextItems` map built by `_onUpdateSync`: the scheduled indices are
first re-filtered against the current `_viewableIndices`, then mapped through
`createViewToken(ii, true)` and keyed by the token's `key`. -/
def nextItemsOf (st : ViewabilityHelper) (viewableIndicesToCheck : List Nat)
    (createViewToken : Nat → Bool → ViewToken) : List (String × ViewToken) :=
  jsMapOfList
    ((viewableIndicesToCheck.filter (fun ii => st._viewableIndices.contains ii)).map
      (fun ii => let viewable := createViewToken ii true; (viewable.key, viewable)))

/-- The two `for ... of` loops of `_onUpdateSync` pushing onto `changed`: first
every entry of `nextItems` whose key is absent from `prevItems`, then every
entry of `prevItems` whose key is absent from `nextItems` with `isViewable`
flipped to `false`. -/
def changedOf (prevItems nextItems : List (String × ViewToken)) : List ViewToken :=
  let appeared := nextItems.foldl
    (fun acc kv => if mapHas prevItems kv.1 then acc else acc ++ [kv.2]) []
  prevItems.foldl
    (fun acc kv => if mapHas nextItems kv.1 then acc
      else acc ++ [{ kv.2 with isViewable := false }]) appeared

/-- `_onUpdateSync(viewableIndicesToCheck, onViewableItemsChanged,
createViewToken)`: returns the new state and the payload passed to
`onViewableItemsChanged` (`none` when the change list was empty and the
callback did not fire). -/
def ViewabilityHelper._onUpdateSync (st : ViewabilityHelper) (viewableIndicesToCheck : List Nat)
    (createViewToken : Nat → Bool → ViewToken) :
    ViewabilityHelper × Option ChangePayload :=
  let nextItems := nextItemsOf st viewableIndicesToCheck createViewToken
  let changed := changedOf st._viewableItems nextItems
  if changed.length > 0 then
    ({ st with _viewableItems := nextItems },
     some { viewableItems := nextItems.map (fun kv => kv.2), changed := changed })
  else
    (st, none)

/-- Truthiness of `this._config.minViewTime && updateElapsed < minViewTime`:
an absent or zero `minViewTime` is falsy. -/
def debounceActive (minViewTime : Option ℚ) (updateElapsed : ℚ) : Bool :=
  match minViewTime with
  | none => false
  | some mvt => decide (mvt ≠ 0 ∧ updateElapsed < mvt)

/-- Step 1 of `onUpdate`: `if (this._lastUpdateTime === 0 && getFrameMetrics(0))
{ this._lastUpdateTime = updateTime; }`. -/
def initLastUpdateTime (st : ViewabilityHelper) (getFrameMetrics : Nat → Option FrameMetrics)
    (updateTime : ℚ) : ViewabilityHelper :=
  if st._lastUpdateTime = 0 ∧ (getFrameMetrics 0).isSome then
    { st with _lastUpdateTime := updateTime }
  else st

/-- `const updateElapsed = this._lastUpdateTime ? updateTime - this._lastUpdateTime : 0`. -/
def updateElapsedOf (st : ViewabilityHelper) (updateTime : ℚ) : ℚ :=
  if st._lastUpdateTime ≠ 0 then updateTime - st._lastUpdateTime else 0

/-- The interaction-latching block of `onUpdate` (guarded by
`waitForInteraction && !hasInteracted && scrollOffset !== 0`, with the optional
`scrollInteractionFilter` evaluation). -/
def latchInteraction (st : ViewabilityHelper) (scrollOffset updateElapsed : ℚ) :
    ViewabilityHelper :=
  if st._config.waitForInteraction = some true ∧ st._hasInteracted = false ∧
      scrollOffset ≠ 0 then
    match st._config.scrollInteractionFilter with
    | some filter =>
      if (filter.minimumOffset = none ∨ filter.minimumOffset.getD 0 ≤ scrollOffset) ∧
         (filter.minimumElapsed = none ∨ filter.minimumElapsed.getD 0 ≤ updateElapsed) then
        { st with _hasInteracted := true }
      else st
    | none => { st with _hasInteracted := true }
  else st

/-- `let viewableIndices = []; if (itemCount) { viewableIndices =
this.computeViewableItems(...); }` — the scan result (or thrown invariant)
used by `onUpdate`. -/
def scanResultOf (config : ViewabilityConfig) (itemCount : Nat) (scrollOffset viewportHeight : ℚ)
    (getFrameMetrics : Nat → Option FrameMetrics) (renderRange : Option RenderRange) :
    Except String (List Nat) :=
  if itemCount ≠ 0 then
    ViewabilityHelper.computeViewableItems config itemCount scrollOffset viewportHeight
      getFrameMetrics renderRange
  else .ok []

/-- The remainder of `onUpdate` after the interaction gate: scan, no-op
short-circuit, commit, and (dead) debounce branch vs. synchronous finalize. -/
def onUpdateBody (st2 : ViewabilityHelper) (itemCount : Nat)
    (scrollOffset viewportHeight : ℚ) (getFrameMetrics : Nat → Option FrameMetrics)
    (createViewToken : Nat → Bool → ViewToken) (renderRange : Option RenderRange)
    (updateTime updateElapsed : ℚ) (newHandle : Nat) :
    ViewabilityHelper × Except String UpdateEffect :=
  match scanResultOf st2._config itemCount scrollOffset viewportHeight getFrameMetrics
      renderRange with
  | .error e => (st2, .error e)
  | .ok viewableIndices =>
    if st2._viewableIndices = viewableIndices then
      (st2, .ok .noChange)
    else
      let st3 := { st2 with _viewableIndices := viewableIndices, _lastUpdateTime := updateTime }
      if debounceActive st3._config.minViewTime updateElapsed then
        ({ st3 with _timers := newHandle :: st3._timers },
         .ok (.scheduled newHandle (st3._config.minViewTime.getD 0) viewableIndices))
      else
        let res := st3._onUpdateSync viewableIndices createViewToken
        (res.1, .ok (.fired res.2))

/-- `onUpdate(itemCount, scrollOffset, viewportHeight, getFrameMetrics,
createViewToken, onViewableItemsChanged, renderRange)`.  `updateTime` stands
for `Date.now()` and `newHandle` for the handle a `setTimeout` call would
return.  The state component of the result reflects every field assignment
performed before a potential `invariant` throw. -/
def ViewabilityHelper.onUpdate (st : ViewabilityHelper) (itemCount : Nat)
    (scrollOffset viewportHeight : ℚ) (getFrameMetrics : Nat → Option FrameMetrics)
    (createViewToken : Nat → Bool → ViewToken) (renderRange : Option RenderRange)
    (updateTime : ℚ) (newHandle : Nat) :
    ViewabilityHelper × Except String UpdateEffect :=
  let st1 := initLastUpdateTime st getFrameMetrics updateTime
  let updateElapsed : ℚ := updateElapsedOf st1 updateTime
  let st2 := latchInteraction st1 scrollOffset updateElapsed
  if st2._config.waitForInteraction = some true ∧ st2._hasInteracted = false then
    (st2, .ok .suppressed)
  else
    onUpdateBody st2 itemCount scrollOffset viewportHeight getFrameMetrics createViewToken
      renderRange updateTime updateElapsed newHandle

/-! ### Field-preservation lemmas for the `onUpdate` stages -/

@[simp]
lemma initLastUpdateTime_config (st : ViewabilityHelper) (f : Nat → Option FrameMetrics) (t : ℚ) :
    (initLastUpdateTime st f t)._config = st._config := by
  unfold initLastUpdateTime; split <;> rfl

@[simp]
lemma initLastUpdateTime_hasInteracted (st : ViewabilityHelper) (f : Nat → Option FrameMetrics)
    (t : ℚ) : (initLastUpdateTime st f t)._hasInteracted = st._hasInteracted := by
  unfold initLastUpdateTime; split <;> rfl

@[simp]
lemma initLastUpdateTime_timers (st : ViewabilityHelper) (f : Nat → Option FrameMetrics) (t : ℚ) :
    (initLastUpdateTime st f t)._timers = st._timers := by
  unfold initLastUpdateTime; split <;> rfl

@[simp]
lemma initLastUpdateTime_viewableIndices (st : ViewabilityHelper) (f : Nat → Option FrameMetrics)
    (t : ℚ) : (initLastUpdateTime st f t)._viewableIndices = st._viewableIndices := by
  unfold initLastUpdateTime; split <;> rfl

@[simp]
lemma initLastUpdateTime_viewableItems (st : ViewabilityHelper) (f : Nat → Option FrameMetrics)
    (t : ℚ) : (initLastUpdateTime st f t)._viewableItems = st._viewableItems := by
  unfold initLastUpdateTime; split <;> rfl

lemma initLastUpdateTime_lastUpdateTime (st : ViewabilityHelper) (f : Nat → Option FrameMetrics)
    (t : ℚ) :
    (initLastUpdateTime st f t)._lastUpdateTime = st._lastUpdateTime ∨
      (st._lastUpdateTime = 0 ∧ (f 0).isSome = true ∧
        (initLastUpdateTime st f t)._lastUpdateTime = t) := by
  unfold initLastUpdateTime
  split
  · next h => exact Or.inr ⟨h.1, h.2, rfl⟩
  · exact Or.inl rfl

@[simp]
lemma latchInteraction_config (st : ViewabilityHelper) (so e : ℚ) :
    (latchInteraction st so e)._config = st._config := by
  unfold latchInteraction; split <;> [skip; rfl]
  split <;> first | rfl | (split <;> rfl)

@[simp]
lemma latchInteraction_lastUpdateTime (st : ViewabilityHelper) (so e : ℚ) :
    (latchInteraction st so e)._lastUpdateTime = st._lastUpdateTime := by
  unfold latchInteraction; split <;> [skip; rfl]
  split <;> first | rfl | (split <;> rfl)

@[simp]
lemma latchInteraction_timers (st : ViewabilityHelper) (so e : ℚ) :
    (latchInteraction st so e)._timers = st._timers := by
  unfold latchInteraction; split <;> [skip; rfl]
  split <;> first | rfl | (split <;> rfl)

@[simp]
lemma latchInteraction_viewableIndices (st : ViewabilityHelper) (so e : ℚ) :
    (latchInteraction st so e)._viewableIndices = st._viewableIndices := by
  unfold latchInteraction; split <;> [skip; rfl]
  split <;> first | rfl | (split <;> rfl)

@[simp]
lemma latchInteraction_viewableItems (st : ViewabilityHelper) (so e : ℚ) :
    (latchInteraction st so e)._viewableItems = st._viewableItems := by
  unfold latchInteraction; split <;> [skip; rfl]
  split <;> first | rfl | (split <;> rfl)

lemma latchInteraction_hasInteracted_of_true (st : ViewabilityHelper) (so e : ℚ)
    (h : st._hasInteracted = true) : (latchInteraction st so e)._hasInteracted = true := by
  unfold latchInteraction
  split
  · next hc => rw [h] at hc; exact absurd hc.2.1 (by simp)
  · exact h

lemma latchInteraction_hasInteracted_cases (st : ViewabilityHelper) (so e : ℚ) :
    (latchInteraction st so e)._hasInteracted = st._hasInteracted ∨
      (latchInteraction st so e)._hasInteracted = true := by
  unfold latchInteraction
  split
  · split
    · split
      · exact Or.inr rfl
      · exact Or.inl rfl
    · exact Or.inr rfl
  · exact Or.inl rfl

lemma latchInteraction_latches_nofilter (st : ViewabilityHelper) (so e : ℚ)
    (hw : st._config.waitForInteraction = some true)
    (hf : st._config.scrollInteractionFilter = none)
    (hh : st._hasInteracted = false) (hs : so ≠ 0) :
    (latchInteraction st so e)._hasInteracted = true := by
  unfold latchInteraction
  rw [if_pos ⟨hw, hh, hs⟩, hf]

lemma latchInteraction_zero_offset (st : ViewabilityHelper) (e : ℚ) :
    latchInteraction st 0 e = st := by
  unfold latchInteraction
  rw [if_neg]
  rintro ⟨-, -, h⟩
  exact h rfl

@[simp]
lemma _onUpdateSync_fst_config (st : ViewabilityHelper) (l : List Nat)
    (cvt : Nat → Bool → ViewToken) :
    (st._onUpdateSync l cvt).1._config = st._config := by
  simp only [ViewabilityHelper._onUpdateSync]; split <;> rfl

@[simp]
lemma _onUpdateSync_fst_hasInteracted (st : ViewabilityHelper) (l : List Nat)
    (cvt : Nat → Bool → ViewToken) :
    (st._onUpdateSync l cvt).1._hasInteracted = st._hasInteracted := by
  simp only [ViewabilityHelper._onUpdateSync]; split <;> rfl

@[simp]
lemma _onUpdateSync_fst_lastUpdateTime (st : ViewabilityHelper) (l : List Nat)
    (cvt : Nat → Bool → ViewToken) :
    (st._onUpdateSync l cvt).1._lastUpdateTime = st._lastUpdateTime := by
  simp only [ViewabilityHelper._onUpdateSync]; split <;> rfl

@[simp]
lemma _onUpdateSync_fst_timers (st : ViewabilityHelper) (l : List Nat)
    (cvt : Nat → Bool → ViewToken) :
    (st._onUpdateSync l cvt).1._timers = st._timers := by
  simp only [ViewabilityHelper._onUpdateSync]; split <;> rfl

@[simp]
lemma _onUpdateSync_fst_viewableIndices (st : ViewabilityHelper) (l : List Nat)
    (cvt : Nat → Bool → ViewToken) :
    (st._onUpdateSync l cvt).1._viewableIndices = st._viewableIndices := by
  simp only [ViewabilityHelper._onUpdateSync]; split <;> rfl

lemma onUpdateBody_fst_hasInteracted (st2 : ViewabilityHelper) (itemCount : Nat) (so vh : ℚ)
    (f : Nat → Option FrameMetrics) (cvt : Nat → Bool → ViewToken) (rr : Option RenderRange)
    (t e : ℚ) (hnd : Nat) :
    (onUpdateBody st2 itemCount so vh f cvt rr t e hnd).1._hasInteracted =
      st2._hasInteracted := by
  unfold onUpdateBody
  split
  · rfl
  · split
    · rfl
    · dsimp only
      split
      · rfl
      · exact _onUpdateSync_fst_hasInteracted ..

/-- Every branch of `onUpdate` past the interaction latch leaves
`_hasInteracted` untouched. -/
lemma onUpdate_hasInteracted (st : ViewabilityHelper) (itemCount : Nat) (so vh : ℚ)
    (f : Nat → Option FrameMetrics) (cvt : Nat → Bool → ViewToken) (rr : Option RenderRange)
    (t : ℚ) (hnd : Nat) :
    (st.onUpdate itemCount so vh f cvt rr t hnd).1._hasInteracted =
      (latchInteraction (initLastUpdateTime st f t) so
        (updateElapsedOf (initLastUpdateTime st f t) t))._hasInteracted := by
  unfold ViewabilityHelper.onUpdate
  dsimp only
  split
  · rfl
  · exact onUpdateBody_fst_hasInteracted ..

/-! ### Concrete instances used by the claim theorems -/

/-- Config with only `itemVisiblePercentThreshold` set (to 0). -/
def itemVisibleZeroConfig : ViewabilityConfig := { itemVisiblePercentThreshold := some 0 }

/-- Config with only `viewAreaCoveragePercentThreshold` set (to 0). -/
def viewAreaZeroConfig : ViewabilityConfig := { viewAreaCoveragePercentThreshold := some 0 }

/-- Config with both percent thresholds set. -/
def bothThresholdsConfig : ViewabilityConfig :=
  { viewAreaCoveragePercentThreshold := some 0, itemVisiblePercentThreshold := some 0 }

/-- A metrics lookup placing every item at offset 0 with length 10. -/
def fullFrameMetrics : Nat → Option FrameMetrics := fun _ => some { length := 10, offset := 0 }

/-- A token factory keyed by the decimal rendering of the index. -/
def indexKeyToken : Nat → Bool → ViewToken :=
  fun ii b => { key := toString ii, index := some ii, isViewable := b }

/-- The documented debounce configuration: `minimumViewTime: 500` with an
item-visible threshold. -/
def debounceBugConfig : ViewabilityConfig :=
  { itemVisiblePercentThreshold := some 0, minimumViewTime := some 500 }

/-- A tracker carrying `debounceBugConfig` whose last accepted update was at
time 1000. -/
def debounceBugState : ViewabilityHelper :=
  { _config := debounceBugConfig, _lastUpdateTime := 1000 }

/-! ### C1 -/

/-- Claim C1 (code bug): with `minimumViewTime = 500` configured and only
100 ms elapsed since the last update, `onUpdate` does NOT schedule a deferred
finalize — the debounce branch reads the nonexistent `_config.minViewTime`
property, so the update finalizes synchronously: the callback fires at once
with the item reported viewable and no timer is added to `_timers`. -/
theorem minimumViewTime_is_ignored :
    debounceBugConfig.minimumViewTime = some 500 ∧
    ((1100 : ℚ) - 1000 < 500) ∧
    (debounceBugState.onUpdate 1 0 10 fullFrameMetrics indexKeyToken none 1100 99).2 =
      .ok (.fired (some { viewableItems := [{ key := "0", index := some 0, isViewable := true }],
                          changed := [{ key := "0", index := some 0, isViewable := true }] })) ∧
    (debounceBugState.onUpdate 1 0 10 fullFrameMetrics indexKeyToken none 1100 99).1._timers
      = [] := by
  refine ⟨rfl, by norm_num, ?_⟩
  norm_num [ViewabilityHelper.onUpdate, initLastUpdateTime, updateElapsedOf, latchInteraction,
    onUpdateBody, scanResultOf, ViewabilityHelper.computeViewableItems, debounceBugState,
    debounceBugConfig, scanViewable, idxRange, overlapsViewport, itemTop, itemBottom,
    _isViewable, _isEntirelyVisible, _getPixelsVisible, jsPercentGE, debounceActive,
    ViewabilityConfig.minViewTime, ViewabilityHelper._onUpdateSync, nextItemsOf, jsMapOfList,
    jsMapSet, mapHas, changedOf, fullFrameMetrics, indexKeyToken,
    show (toString (0 : Nat) : String) = "0" from rfl]
  simp

/-! ### C2 -/

/-- The threshold `invariant` condition of `computeViewableItems` holds exactly
when exactly one of the two percent thresholds is set. -/
lemma threshold_invariant_eq (c : ViewabilityConfig) :
    ((if c.viewAreaCoveragePercentThreshold.isSome then c.viewAreaCoveragePercentThreshold
      else c.itemVisiblePercentThreshold).isSome &&
     (c.itemVisiblePercentThreshold.isSome != c.viewAreaCoveragePercentThreshold.isSome)) =
      exactlyOneThreshold c := by
  unfold exactlyOneThreshold
  cases h1 : c.itemVisiblePercentThreshold <;> cases h2 : c.viewAreaCoveragePercentThreshold <;>
    simp [h1, h2]

/-- Claim C2 counterexample: a configuration with BOTH thresholds set is
accepted by the constructor — no configuration error is raised at
configuration (construction) time. -/
theorem construct_accepts_both_thresholds :
    ViewabilityHelper.construct (some bothThresholdsConfig) =
      .ok { _config := bothThresholdsConfig } := rfl

/-- Claim C2 (amended): the both-or-neither threshold misconfiguration fails
with the configuration error at every `computeViewableItems` call (never
silently defaulting), and exactly-one configurations never produce that error;
but the validation happens per call, not at construction: the constructor
accepts any config satisfying the `scrollInteractionFilter` invariant,
thresholds unchecked. -/
theorem threshold_validation_per_call :
    (∀ (c : ViewabilityConfig) (itemCount : Nat) (so vh : ℚ)
        (f : Nat → Option FrameMetrics) (rr : Option RenderRange),
      exactlyOneThreshold c = false →
        ViewabilityHelper.computeViewableItems c itemCount so vh f rr = .error thresholdErrMsg) ∧
    (∀ (c : ViewabilityConfig) (itemCount : Nat) (so vh : ℚ)
        (f : Nat → Option FrameMetrics) (rr : Option RenderRange),
      exactlyOneThreshold c = true →
        ViewabilityHelper.computeViewableItems c itemCount so vh f rr ≠ .error thresholdErrMsg) ∧
    (∀ c : ViewabilityConfig,
      (c.scrollInteractionFilter = none ∨ c.waitForInteraction = some true) →
        ViewabilityHelper.construct (some c) = .ok { _config := c }) := by
  refine ⟨?_, ?_, ?_⟩
  · intro c itemCount so vh f rr h
    simp only [ViewabilityHelper.computeViewableItems, threshold_invariant_eq, h]
    rfl
  · intro c itemCount so vh f rr h
    simp only [ViewabilityHelper.computeViewableItems, threshold_invariant_eq, h]
    simp only [Bool.not_true, Bool.false_eq_true, if_false]
    split
    · simp
    · split
      · intro hcontra
        rw [Except.error.injEq] at hcontra
        exact absurd hcontra (by decide)
      · simp
  · intro c h
    unfold ViewabilityHelper.construct
    rcases h with h | h <;> simp [h]

/-- Witness for C2's amended theorem at concrete configurations. -/
theorem threshold_validation_per_call_witness :
    ViewabilityHelper.computeViewableItems bothThresholdsConfig 1 0 10 fullFrameMetrics none =
      .error thresholdErrMsg ∧
    ViewabilityHelper.computeViewableItems itemVisibleZeroConfig 1 0 10 fullFrameMetrics none ≠
      .error thresholdErrMsg ∧
    ViewabilityHelper.construct (some itemVisibleZeroConfig) =
      .ok { _config := itemVisibleZeroConfig } :=
  ⟨threshold_validation_per_call.1 bothThresholdsConfig 1 0 10 fullFrameMetrics none rfl,
   threshold_validation_per_call.2.1 itemVisibleZeroConfig 1 0 10 fullFrameMetrics none rfl,
   threshold_validation_per_call.2.2 itemVisibleZeroConfig (Or.inl rfl)⟩

/-! ### C8 -/

/-- Claim C8 counterexample: with `itemCount = 0` a render range with
`last >= itemCount` does NOT raise the invalid-render-range error — the
empty-list early return precedes the range invariant. -/
theorem zero_itemCount_skips_range_check :
    ViewabilityHelper.computeViewableItems viewAreaZeroConfig 0 0 10 fullFrameMetrics
      (some { first := 0, last := 3 }) = .ok [] := rfl

/-- Claim C8 (amended): for every `itemCount > 0`, a supplied render range with
`last >= itemCount` raises the invalid-render-range error at the call site;
for `itemCount = 0` the call instead returns the empty sequence immediately,
for any render range and independently of the metrics lookup. -/
theorem render_range_validation :
    (∀ (c : ViewabilityConfig) (itemCount : Nat) (so vh : ℚ)
        (f : Nat → Option FrameMetrics) (rr : RenderRange),
      exactlyOneThreshold c = true → 0 < itemCount → itemCount ≤ rr.last →
        ViewabilityHelper.computeViewableItems c itemCount so vh f (some rr) =
          .error rangeErrMsg) ∧
    (∀ (c : ViewabilityConfig) (so vh : ℚ) (f g : Nat → Option FrameMetrics)
        (rr : Option RenderRange),
      exactlyOneThreshold c = true →
        ViewabilityHelper.computeViewableItems c 0 so vh f rr = .ok [] ∧
        ViewabilityHelper.computeViewableItems c 0 so vh f rr =
          ViewabilityHelper.computeViewableItems c 0 so vh g rr) := by
  constructor
  · intro c itemCount so vh f rr h h0 hlast
    simp only [ViewabilityHelper.computeViewableItems, threshold_invariant_eq, h]
    simp only [Bool.not_true, Bool.false_eq_true, if_false]
    rw [if_neg (by omega), Option.getD_some, if_pos (by simp; omega)]
  · intro c so vh f g rr h
    simp only [ViewabilityHelper.computeViewableItems, threshold_invariant_eq, h]
    simp

/-- Witness for C8's amended theorem at concrete inputs. -/
theorem render_range_validation_witness :
    ViewabilityHelper.computeViewableItems viewAreaZeroConfig 2 0 10 fullFrameMetrics
      (some { first := 0, last := 3 }) = .error rangeErrMsg ∧
    ViewabilityHelper.computeViewableItems viewAreaZeroConfig 0 0 10 fullFrameMetrics
      (some { first := 0, last := 3 }) = .ok [] :=
  ⟨render_range_validation.1 viewAreaZeroConfig 2 0 10 fullFrameMetrics
      { first := 0, last := 3 } rfl (by omega) (by norm_num),
   (render_range_validation.2 viewAreaZeroConfig 0 10 fullFrameMetrics fullFrameMetrics
      (some { first := 0, last := 3 }) rfl).1⟩

/-! ### C4 -/

/-- Claim C4: the geometric viewability test returns true iff the item is
entirely visible (`top >= 0 ∧ bottom <= viewportHeight ∧ bottom > top`, in
which case the threshold is irrelevant) or else the visible percent
`100 * pixelsVisible / denominator` — with
`pixelsVisible = max 0 (min bottom viewportHeight - max top 0)` and the
denominator `viewportHeight` in view-area mode resp. `itemLength` in
item-visible mode — is at least the configured threshold.  Stated for every
input on which that division is defined (a nonzero denominator). -/
theorem isViewable_iff_spec (viewAreaMode : Bool)
    (threshold top bottom viewportHeight itemLength : ℚ)
    (hd : (if viewAreaMode then viewportHeight else itemLength) ≠ 0) :
    _isViewable viewAreaMode threshold top bottom viewportHeight itemLength = true ↔
      ((top ≥ 0 ∧ bottom ≤ viewportHeight ∧ bottom > top) ∨
        100 * (max 0 (min bottom viewportHeight - max top 0) /
          (if viewAreaMode then viewportHeight else itemLength)) ≥ threshold) := by
  unfold _isViewable _isEntirelyVisible jsPercentGE _getPixelsVisible
  by_cases h : top ≥ 0 ∧ bottom ≤ viewportHeight ∧ bottom > top
  · simp [h]
  · simp [h, hd]

/-- Witness for C4 at the spec's item-visible example (`length = 200`,
`pixelsVisible = 50`, `percent = 25`, threshold 25). -/
theorem isViewable_iff_spec_witness :
    _isViewable false 25 (-150) 50 100 200 = true ↔
      (((-150 : ℚ) ≥ 0 ∧ (50 : ℚ) ≤ 100 ∧ (50 : ℚ) > -150) ∨
        100 * (max 0 (min (50 : ℚ) 100 - max (-150) 0) /
          (if false then (100 : ℚ) else 200)) ≥ 25) :=
  isViewable_iff_spec false 25 (-150) 50 100 200 (by decide)

/-! ### C10 -/

/-- Claim C10: an overlapping zero-length item (`top = bottom`, `0 < top <
viewportHeight`) has `pixelsVisible = 0`; in item-visible mode the percent is
the JS division `0 / 0` (`NaN`) and the item is judged not viewable for every
threshold, while in view-area mode with threshold 0 the same item is judged
viewable (`0 >= 0`); the entirely-visible short-circuit never applies since it
requires `bottom > top`. -/
theorem zeroLength_item_mode_discrepancy (top viewportHeight threshold : ℚ)
    (h1 : 0 < top) (h2 : top < viewportHeight) :
    _getPixelsVisible top top viewportHeight = 0 ∧
    _isEntirelyVisible top top viewportHeight = false ∧
    _isViewable false threshold top top viewportHeight 0 = false ∧
    _isViewable true 0 top top viewportHeight 0 = true := by
  have hvh : viewportHeight ≠ 0 := (h1.trans h2).ne'
  have hpix : _getPixelsVisible top top viewportHeight = 0 := by
    unfold _getPixelsVisible
    rw [min_eq_left h2.le, max_eq_left h1.le]
    simp
  have hev : _isEntirelyVisible top top viewportHeight = false := by
    unfold _isEntirelyVisible
    simp
  refine ⟨hpix, hev, ?_, ?_⟩
  · unfold _isViewable
    rw [hev, jsPercentGE, hpix]
    simp
  · unfold _isViewable
    rw [hev, jsPercentGE, hpix]
    simp [hvh]

/-- Witness for C10 at `top = bottom = 5`, `viewportHeight = 10`,
item-visible threshold 50. -/
theorem zeroLength_item_mode_discrepancy_witness :
    _getPixelsVisible 5 5 10 = 0 ∧
    _isEntirelyVisible 5 5 10 = false ∧
    _isViewable false 50 5 5 10 0 = false ∧
    _isViewable true 0 5 5 10 0 = true :=
  zeroLength_item_mode_discrepancy 5 10 50 (by norm_num) (by norm_num)

/-! ### C7 -/

/-- The first `for ... of` loop of `_onUpdateSync` as a filter-map. -/
lemma changedOf_appeared_eq (prev : List (String × ViewToken)) :
    ∀ (next : List (String × ViewToken)) (acc : List ViewToken),
      next.foldl (fun acc kv => if mapHas prev kv.1 then acc else acc ++ [kv.2]) acc =
        acc ++ (next.filter (fun kv => !(mapHas prev kv.1))).map (fun kv => kv.2) := by
  intro next
  induction next with
  | nil => intro acc; simp
  | cons x rest ih =>
    intro acc
    by_cases h : mapHas prev x.1 = true
    · simp [h, ih]
    · simp only [Bool.not_eq_true] at h
      simp [h, ih]

/-- The second `for ... of` loop of `_onUpdateSync` as a filter-map. -/
lemma changedOf_left_eq (next : List (String × ViewToken)) :
    ∀ (prev : List (String × ViewToken)) (acc : List ViewToken),
      prev.foldl (fun acc kv => if mapHas next kv.1 then acc
          else acc ++ [{ kv.2 with isViewable := false }]) acc =
        acc ++ (prev.filter (fun kv => !(mapHas next kv.1))).map
          (fun kv => { kv.2 with isViewable := false }) := by
  intro prev
  induction prev with
  | nil => intro acc; simp
  | cons x rest ih =>
    intro acc
    by_cases h : mapHas next x.1 = true
    · simp [h, ih]
    · simp only [Bool.not_eq_true] at h
      simp [h, ih]

/-- The spec's description of the change list: each key present in the new
mapping but absent from the committed set contributes its new token, followed
by each key present in the committed set but absent from the new mapping
contributing its previous token with the viewability flag flipped to false
(order: appeared-then-disappeared). -/
def specChanged (prevItems nextItems : List (String × ViewToken)) : List ViewToken :=
  (nextItems.filter (fun kv => !(mapHas prevItems kv.1))).map (fun kv => kv.2) ++
  (prevItems.filter (fun kv => !(mapHas nextItems kv.1))).map
    (fun kv => { kv.2 with isViewable := false })

/-- The loop-accumulated change list equals the spec's filter description. -/
lemma changedOf_eq_specChanged (prev next : List (String × ViewToken)) :
    changedOf prev next = specChanged prev next := by
  unfold changedOf specChanged
  rw [changedOf_appeared_eq, changedOf_left_eq]
  simp

/-- Closed form of `_onUpdateSync` in terms of the spec-level diff. -/
lemma _onUpdateSync_eq (st : ViewabilityHelper) (toCheck : List Nat)
    (cvt : Nat → Bool → ViewToken) :
    st._onUpdateSync toCheck cvt =
      if specChanged st._viewableItems (nextItemsOf st toCheck cvt) = [] then (st, none)
      else ({ st with _viewableItems := nextItemsOf st toCheck cvt },
        some { viewableItems := (nextItemsOf st toCheck cvt).map (fun kv => kv.2),
               changed := specChanged st._viewableItems (nextItemsOf st toCheck cvt) }) := by
  simp only [ViewabilityHelper._onUpdateSync, changedOf_eq_specChanged]
  by_cases hc : specChanged st._viewableItems (nextItemsOf st toCheck cvt) = []
  · simp [hc]
  · simp [hc, List.length_pos.2 hc]

/-- Values of `jsMapSet m k v` are values of `m` or `v` itself. -/
lemma jsMapSet_forall {P : ViewToken → Prop} (m : List (String × ViewToken)) (k : String)
    (v : ViewToken) (hm : ∀ kv ∈ m, P kv.2) (hv : P v) :
    ∀ kv ∈ jsMapSet m k v, P kv.2 := by
  intro kv hkv
  unfold jsMapSet at hkv
  split at hkv
  · obtain ⟨kv', hkv', heq⟩ := List.mem_map.1 hkv
    split at heq
    · cases heq; exact hv
    · cases heq; exact hm _ hkv'
  · rcases List.mem_append.1 hkv with h | h
    · exact hm kv h
    · rcases List.mem_singleton.1 h with rfl
      exact hv

/-- Values of the accumulated JS map are values of the input pair list. -/
lemma jsMapOfList_forall {P : ViewToken → Prop} :
    ∀ (l acc : List (String × ViewToken)),
      (∀ kv ∈ acc, P kv.2) → (∀ kv ∈ l, P kv.2) →
      ∀ kv ∈ l.foldl (fun m kv => jsMapSet m kv.1 kv.2) acc, P kv.2 := by
  intro l
  induction l with
  | nil =>
    intro acc hacc _ kv hkv
    exact hacc kv hkv
  | cons x rest ih =>
    intro acc hacc hl kv hkv
    refine ih (jsMapSet acc x.1 x.2) ?_ (fun kv h => hl kv (List.mem_cons_of_mem _ h)) kv hkv
    exact jsMapSet_forall acc x.1 x.2 hacc (hl x (List.mem_cons_self _ _))

/-- Every token in the `nextItems` mapping was created with viewability flag
true. -/
lemma nextItemsOf_isViewable (st : ViewabilityHelper) (toCheck : List Nat)
    (cvt : Nat → Bool → ViewToken) (hcvt : ∀ ii b, (cvt ii b).isViewable = b) :
    ∀ kv ∈ nextItemsOf st toCheck cvt, kv.2.isViewable = true := by
  unfold nextItemsOf jsMapOfList
  intro kv hkv
  refine @jsMapOfList_forall (fun v => v.isViewable = true) _ [] (by simp) ?_ kv hkv
  intro kv' hkv'
  obtain ⟨ii, hii, heq⟩ := List.mem_map.1 hkv'
  cases heq
  exact hcvt ii true

/-- Claim C7: at every finalize, the change list is exactly the keys of the
new mapping absent from `committedViewableItems` (their new tokens, created
with viewability flag true) followed by the keys of `committedViewableItems`
absent from the new mapping (their previous tokens re-emitted with
`isViewable` flipped to false); the consumer callback is invoked iff that list
is non-empty, and `committedViewableItems` is replaced by the new mapping
exactly when the callback fires (left untouched otherwise). -/
theorem onUpdateSync_diff_spec (st : ViewabilityHelper) (toCheck : List Nat)
    (cvt : Nat → Bool → ViewToken) (hcvt : ∀ ii b, (cvt ii b).isViewable = b) :
    changedOf st._viewableItems (nextItemsOf st toCheck cvt) =
        specChanged st._viewableItems (nextItemsOf st toCheck cvt) ∧
    (((st._onUpdateSync toCheck cvt).2).isSome ↔
        specChanged st._viewableItems (nextItemsOf st toCheck cvt) ≠ []) ∧
    (∀ p, (st._onUpdateSync toCheck cvt).2 = some p →
        p.changed = specChanged st._viewableItems (nextItemsOf st toCheck cvt) ∧
        p.viewableItems = (nextItemsOf st toCheck cvt).map (fun kv => kv.2)) ∧
    ((st._onUpdateSync toCheck cvt).1._viewableItems =
      if specChanged st._viewableItems (nextItemsOf st toCheck cvt) = [] then st._viewableItems
      else nextItemsOf st toCheck cvt) ∧
    ((st._onUpdateSync toCheck cvt).2 = none → (st._onUpdateSync toCheck cvt).1 = st) ∧
    (∀ v ∈ ((nextItemsOf st toCheck cvt).filter
        (fun kv => !(mapHas st._viewableItems kv.1))).map (fun kv => kv.2),
      v.isViewable = true) ∧
    (∀ v ∈ (st._viewableItems.filter
        (fun kv => !(mapHas (nextItemsOf st toCheck cvt) kv.1))).map
          (fun kv => { kv.2 with isViewable := false }),
      v.isViewable = false) := by
  rw [_onUpdateSync_eq]
  refine ⟨changedOf_eq_specChanged .., ?_, ?_, ?_, ?_, ?_, ?_⟩
  · by_cases hc : specChanged st._viewableItems (nextItemsOf st toCheck cvt) = [] <;>
      simp [hc]
  · intro p hp
    by_cases hc : specChanged st._viewableItems (nextItemsOf st toCheck cvt) = []
    · rw [if_pos hc] at hp
      exact absurd hp (by simp)
    · rw [if_neg hc] at hp
      simp only [Option.some.injEq] at hp
      cases hp
      exact ⟨rfl, rfl⟩
  · by_cases hc : specChanged st._viewableItems (nextItemsOf st toCheck cvt) = [] <;>
      simp [hc]
  · intro hp
    by_cases hc : specChanged st._viewableItems (nextItemsOf st toCheck cvt) = []
    · rw [if_pos hc]
    · rw [if_neg hc] at hp
      exact absurd hp (by simp)
  · intro v hv
    obtain ⟨kv, hkv, rfl⟩ := List.mem_map.1 hv
    exact nextItemsOf_isViewable st toCheck cvt hcvt kv (List.mem_of_mem_filter hkv)
  · intro v hv
    obtain ⟨kv, hkv, rfl⟩ := List.mem_map.1 hv
    rfl

/-- The spec's previously-viewable token with key `"a"`. -/
def prevTokenA : ViewToken := { key := "a", index := some 1, isViewable := true }

/-- A tracker that committed only `"a"` and currently computes index 5 as
viewable. -/
def stDiffExample : ViewabilityHelper :=
  { _config := viewAreaZeroConfig, _viewableIndices := [5],
    _viewableItems := [("a", prevTokenA)] }

/-- A token factory producing key `"b"` for every index. -/
def keyBToken : Nat → Bool → ViewToken :=
  fun ii b => { key := "b", index := some ii, isViewable := b }

/-- Witness for C7 at the spec's `"a"`/`"b"` diff example. -/
theorem onUpdateSync_diff_spec_witness :
    changedOf stDiffExample._viewableItems (nextItemsOf stDiffExample [5] keyBToken) =
      specChanged stDiffExample._viewableItems (nextItemsOf stDiffExample [5] keyBToken) ∧
    (((stDiffExample._onUpdateSync [5] keyBToken).2).isSome ↔
      specChanged stDiffExample._viewableItems (nextItemsOf stDiffExample [5] keyBToken) ≠ []) :=
  ⟨(onUpdateSync_diff_spec stDiffExample [5] keyBToken (fun _ _ => rfl)).1,
   (onUpdateSync_diff_spec stDiffExample [5] keyBToken (fun _ _ => rfl)).2.1⟩

/-! ### C9 -/

/-- Claim C9: `hasInteracted` is monotone (never reset by `onUpdate`, and
`recordInteraction` latches it unconditionally); with `waitForInteraction`
configured and no `scrollInteractionFilter`, a zero-offset update never
latches it and any non-zero-offset update latches it. -/
theorem hasInteracted_latching :
    (∀ (st : ViewabilityHelper) (itemCount : Nat) (so vh : ℚ)
        (f : Nat → Option FrameMetrics) (cvt : Nat → Bool → ViewToken)
        (rr : Option RenderRange) (t : ℚ) (hnd : Nat),
      st._hasInteracted = true →
        (st.onUpdate itemCount so vh f cvt rr t hnd).1._hasInteracted = true) ∧
    (∀ st : ViewabilityHelper, st.recordInteraction._hasInteracted = true) ∧
    (∀ (st : ViewabilityHelper) (itemCount : Nat) (vh : ℚ)
        (f : Nat → Option FrameMetrics) (cvt : Nat → Bool → ViewToken)
        (rr : Option RenderRange) (t : ℚ) (hnd : Nat),
      st._hasInteracted = false →
        (st.onUpdate itemCount 0 vh f cvt rr t hnd).1._hasInteracted = false) ∧
    (∀ (st : ViewabilityHelper) (itemCount : Nat) (so vh : ℚ)
        (f : Nat → Option FrameMetrics) (cvt : Nat → Bool → ViewToken)
        (rr : Option RenderRange) (t : ℚ) (hnd : Nat),
      st._config.waitForInteraction = some true →
      st._config.scrollInteractionFilter = none →
      so ≠ 0 →
        (st.onUpdate itemCount so vh f cvt rr t hnd).1._hasInteracted = true) := by
  refine ⟨?_, ?_, ?_, ?_⟩
  · intro st itemCount so vh f cvt rr t hnd h
    rw [onUpdate_hasInteracted]
    exact latchInteraction_hasInteracted_of_true _ _ _
      (by rw [initLastUpdateTime_hasInteracted]; exact h)
  · intro st
    rfl
  · intro st itemCount vh f cvt rr t hnd h
    rw [onUpdate_hasInteracted, latchInteraction_zero_offset, initLastUpdateTime_hasInteracted]
    exact h
  · intro st itemCount so vh f cvt rr t hnd hw hf hs
    rw [onUpdate_hasInteracted]
    by_cases h0 : (initLastUpdateTime st f t)._hasInteracted = true
    · exact latchInteraction_hasInteracted_of_true _ _ _ h0
    · refine latchInteraction_latches_nofilter _ _ _ ?_ ?_ ?_ hs
      · rw [initLastUpdateTime_config]; exact hw
      · rw [initLastUpdateTime_config]; exact hf
      · simpa using h0

/-- A fresh tracker with `waitForInteraction: true` and no filter. -/
def waitStateNF : ViewabilityHelper :=
  { _config := { viewAreaCoveragePercentThreshold := some 0, waitForInteraction := some true } }

/-- Witness for C9 at concrete updates on `waitStateNF`. -/
theorem hasInteracted_latching_witness :
    waitStateNF.recordInteraction._hasInteracted = true ∧
    (waitStateNF.onUpdate 1 0 10 fullFrameMetrics indexKeyToken none 1000 0).1._hasInteracted =
      false ∧
    (waitStateNF.onUpdate 1 3 10 fullFrameMetrics indexKeyToken none 1000 0).1._hasInteracted =
      true :=
  ⟨hasInteracted_latching.2.1 waitStateNF,
   hasInteracted_latching.2.2.1 waitStateNF 1 10 fullFrameMetrics indexKeyToken none 1000 0 rfl,
   hasInteracted_latching.2.2.2 waitStateNF 1 3 10 fullFrameMetrics indexKeyToken none 1000 0
     rfl rfl (by norm_num)⟩

/-! ### C3 -/

/-- `onUpdateBody` never reports the suppression effect. -/
lemma onUpdateBody_ne_suppressed (st2 : ViewabilityHelper) (itemCount : Nat) (so vh : ℚ)
    (f : Nat → Option FrameMetrics) (cvt : Nat → Bool → ViewToken) (rr : Option RenderRange)
    (t e : ℚ) (hnd : Nat) :
    (onUpdateBody st2 itemCount so vh f cvt rr t e hnd).2 ≠ .ok .suppressed := by
  unfold onUpdateBody
  split
  · simp
  · split
    · simp
    · dsimp only
      split
      · simp
      · simp

/-- A suppressed `onUpdate` returns exactly the post-latch state. -/
lemma onUpdate_suppressed_cases (st : ViewabilityHelper) (itemCount : Nat) (so vh : ℚ)
    (f : Nat → Option FrameMetrics) (cvt : Nat → Bool → ViewToken) (rr : Option RenderRange)
    (t : ℚ) (hnd : Nat)
    (h : (st.onUpdate itemCount so vh f cvt rr t hnd).2 = .ok .suppressed) :
    st.onUpdate itemCount so vh f cvt rr t hnd =
      (latchInteraction (initLastUpdateTime st f t) so
        (updateElapsedOf (initLastUpdateTime st f t) t), .ok .suppressed) ∧
    (latchInteraction (initLastUpdateTime st f t) so
      (updateElapsedOf (initLastUpdateTime st f t) t))._hasInteracted = false := by
  unfold ViewabilityHelper.onUpdate at h ⊢
  dsimp only at h ⊢
  split at h
  · next hc => exact ⟨by rw [if_pos hc], hc.2⟩
  · exact absurd h (onUpdateBody_ne_suppressed _ _ _ _ _ _ _ _ _ _)

/-- Claim C3 (amended): a gated update with interaction still unlatched is
suppressed: no scan runs and no notification fires (the effect is
`suppressed`), `_viewableIndices`, `_viewableItems`, `_timers`, the config and
`_hasInteracted` are all left untouched (and `_hasInteracted` was and stays
false) — with the one exception that `_lastUpdateTime` may be initialized from
0 to the update time when the first item has metrics, since that initialization
precedes the gate. -/
theorem suppressed_update_effects (st : ViewabilityHelper) (itemCount : Nat) (so vh : ℚ)
    (f : Nat → Option FrameMetrics) (cvt : Nat → Bool → ViewToken) (rr : Option RenderRange)
    (t : ℚ) (hnd : Nat)
    (hsup : (st.onUpdate itemCount so vh f cvt rr t hnd).2 = .ok .suppressed) :
    (st.onUpdate itemCount so vh f cvt rr t hnd).1._viewableIndices = st._viewableIndices ∧
    (st.onUpdate itemCount so vh f cvt rr t hnd).1._viewableItems = st._viewableItems ∧
    (st.onUpdate itemCount so vh f cvt rr t hnd).1._timers = st._timers ∧
    (st.onUpdate itemCount so vh f cvt rr t hnd).1._config = st._config ∧
    (st.onUpdate itemCount so vh f cvt rr t hnd).1._hasInteracted = false ∧
    st._hasInteracted = false ∧
    ((st.onUpdate itemCount so vh f cvt rr t hnd).1._lastUpdateTime = st._lastUpdateTime ∨
      (st._lastUpdateTime = 0 ∧ (f 0).isSome = true ∧
        (st.onUpdate itemCount so vh f cvt rr t hnd).1._lastUpdateTime = t)) := by
  obtain ⟨heq, hfalse⟩ :=
    onUpdate_suppressed_cases st itemCount so vh f cvt rr t hnd hsup
  rw [heq]
  refine ⟨by simp, by simp, by simp, by simp, hfalse, ?_, ?_⟩
  · rcases latchInteraction_hasInteracted_cases (initLastUpdateTime st f t) so
      (updateElapsedOf (initLastUpdateTime st f t) t) with hcase | hcase
    · rw [hcase, initLastUpdateTime_hasInteracted] at hfalse
      exact hfalse
    · rw [hcase] at hfalse
      exact absurd hfalse (by simp)
  · simp only [latchInteraction_lastUpdateTime]
    exact initLastUpdateTime_lastUpdateTime st f t

/-- Claim C3 counterexample: a suppressed update CAN mutate tracker state —
on a fresh tracker (`lastUpdateTime = 0`) with measured first item, the gated
zero-offset update is suppressed yet `_lastUpdateTime` changes from 0 to the
update time. -/
theorem suppressed_update_mutates_lastUpdateTime :
    (waitStateNF.onUpdate 1 0 10 fullFrameMetrics indexKeyToken none 1000 7).2 =
      .ok .suppressed ∧
    waitStateNF._lastUpdateTime = 0 ∧
    (waitStateNF.onUpdate 1 0 10 fullFrameMetrics indexKeyToken none 1000 7).1._lastUpdateTime =
      1000 := by
  refine ⟨?_, rfl, ?_⟩ <;>
    norm_num [ViewabilityHelper.onUpdate, initLastUpdateTime, updateElapsedOf, latchInteraction,
      waitStateNF, fullFrameMetrics]

/-- Witness for C3's amended theorem at a concrete suppressed update. -/
theorem suppressed_update_effects_witness :
    (waitStateNF.onUpdate 1 0 20 fullFrameMetrics indexKeyToken none 2000 3).1._viewableIndices =
      waitStateNF._viewableIndices ∧
    (waitStateNF.onUpdate 1 0 20 fullFrameMetrics indexKeyToken none 2000 3).1._viewableItems =
      waitStateNF._viewableItems ∧
    (waitStateNF.onUpdate 1 0 20 fullFrameMetrics indexKeyToken none 2000 3).1._timers =
      waitStateNF._timers ∧
    (waitStateNF.onUpdate 1 0 20 fullFrameMetrics indexKeyToken none 2000 3).1._config =
      waitStateNF._config ∧
    (waitStateNF.onUpdate 1 0 20 fullFrameMetrics indexKeyToken none 2000 3).1._hasInteracted =
      false ∧
    waitStateNF._hasInteracted = false ∧
    ((waitStateNF.onUpdate 1 0 20 fullFrameMetrics indexKeyToken none 2000 3).1._lastUpdateTime =
        waitStateNF._lastUpdateTime ∨
      (waitStateNF._lastUpdateTime = 0 ∧ (fullFrameMetrics 0).isSome = true ∧
        (waitStateNF.onUpdate 1 0 20 fullFrameMetrics indexKeyToken none 2000 3).1._lastUpdateTime =
          2000)) :=
  suppressed_update_effects waitStateNF 1 0 20 fullFrameMetrics indexKeyToken none 2000 3
    (by norm_num [ViewabilityHelper.onUpdate, initLastUpdateTime, updateElapsedOf,
      latchInteraction, waitStateNF, fullFrameMetrics])

/-! ### C6 -/

/-- A `noChange` outcome of `onUpdateBody` leaves the state untouched. -/
lemma onUpdateBody_noChange (st2 : ViewabilityHelper) (itemCount : Nat) (so vh : ℚ)
    (f : Nat → Option FrameMetrics) (cvt : Nat → Bool → ViewToken) (rr : Option RenderRange)
    (t e : ℚ) (hnd : Nat)
    (h : (onUpdateBody st2 itemCount so vh f cvt rr t e hnd).2 = .ok .noChange) :
    onUpdateBody st2 itemCount so vh f cvt rr t e hnd = (st2, .ok .noChange) := by
  unfold onUpdateBody at h ⊢
  split at h
  · simp at h
  · next vi heq =>
    split at h
    · next hc =>
      rw [if_pos hc]
    · dsimp only at h
      split at h <;> simp at h

/-- A `noChange` `onUpdate` returns exactly the post-latch state. -/
lemma onUpdate_noChange_cases (st : ViewabilityHelper) (itemCount : Nat) (so vh : ℚ)
    (f : Nat → Option FrameMetrics) (cvt : Nat → Bool → ViewToken) (rr : Option RenderRange)
    (t : ℚ) (hnd : Nat)
    (h : (st.onUpdate itemCount so vh f cvt rr t hnd).2 = .ok .noChange) :
    st.onUpdate itemCount so vh f cvt rr t hnd =
      (latchInteraction (initLastUpdateTime st f t) so
        (updateElapsedOf (initLastUpdateTime st f t) t), .ok .noChange) := by
  unfold ViewabilityHelper.onUpdate at h ⊢
  dsimp only at h ⊢
  split at h
  · simp at h
  · next hc =>
    rw [if_neg hc]
    exact Prod.ext (onUpdateBody_noChange _ _ _ _ _ _ _ _ _ _ h ▸ rfl) h

/-- Claim C6 (amended): an update whose computed index sequence equals
`_viewableIndices` is discarded — no debounce timer is scheduled, the
notification callback is not invoked (the effect is `noChange`),
`_viewableIndices`, `_viewableItems`, `_timers` and the config are untouched,
and `_lastUpdateTime` is not committed — except that it may be initialized
from 0 to the update time when the first item has metrics, since that
initialization precedes the short-circuit. -/
theorem noChange_discard_effects (st : ViewabilityHelper) (itemCount : Nat) (so vh : ℚ)
    (f : Nat → Option FrameMetrics) (cvt : Nat → Bool → ViewToken) (rr : Option RenderRange)
    (t : ℚ) (hnd : Nat)
    (hnc : (st.onUpdate itemCount so vh f cvt rr t hnd).2 = .ok .noChange) :
    (st.onUpdate itemCount so vh f cvt rr t hnd).1._viewableIndices = st._viewableIndices ∧
    (st.onUpdate itemCount so vh f cvt rr t hnd).1._viewableItems = st._viewableItems ∧
    (st.onUpdate itemCount so vh f cvt rr t hnd).1._timers = st._timers ∧
    (st.onUpdate itemCount so vh f cvt rr t hnd).1._config = st._config ∧
    ((st.onUpdate itemCount so vh f cvt rr t hnd).1._lastUpdateTime = st._lastUpdateTime ∨
      (st._lastUpdateTime = 0 ∧ (f 0).isSome = true ∧
        (st.onUpdate itemCount so vh f cvt rr t hnd).1._lastUpdateTime = t)) := by
  rw [onUpdate_noChange_cases st itemCount so vh f cvt rr t hnd hnc]
  refine ⟨by simp, by simp, by simp, by simp, ?_⟩
  simp only [latchInteraction_lastUpdateTime]
  exact initLastUpdateTime_lastUpdateTime st f t

/-- A fresh tracker with only `viewAreaCoveragePercentThreshold: 0`. -/
def freshVAState : ViewabilityHelper := { _config := viewAreaZeroConfig }

/-- Claim C6 counterexample: an update whose computed sequence equals
`currentViewableIndices` (both empty, `itemCount = 0`) is discarded, yet
`lastUpdateTime` IS updated — from 0 to the update time — because the
first-measurement initialization runs before the short-circuit. -/
theorem noChange_update_mutates_lastUpdateTime :
    (freshVAState.onUpdate 0 0 10 fullFrameMetrics indexKeyToken none 1000 7).2 =
      .ok .noChange ∧
    freshVAState._lastUpdateTime = 0 ∧
    (freshVAState.onUpdate 0 0 10 fullFrameMetrics indexKeyToken none 1000 7).1._lastUpdateTime =
      1000 := by
  refine ⟨?_, rfl, ?_⟩ <;>
    (norm_num [ViewabilityHelper.onUpdate, initLastUpdateTime, updateElapsedOf, latchInteraction,
      onUpdateBody, scanResultOf, freshVAState, viewAreaZeroConfig, fullFrameMetrics]; simp)

/-- Witness for C6's amended theorem at a concrete discarded update. -/
theorem noChange_discard_effects_witness :
    (freshVAState.onUpdate 0 0 10 fullFrameMetrics indexKeyToken none 500 2).1._viewableIndices =
      freshVAState._viewableIndices ∧
    (freshVAState.onUpdate 0 0 10 fullFrameMetrics indexKeyToken none 500 2).1._viewableItems =
      freshVAState._viewableItems ∧
    (freshVAState.onUpdate 0 0 10 fullFrameMetrics indexKeyToken none 500 2).1._timers =
      freshVAState._timers ∧
    (freshVAState.onUpdate 0 0 10 fullFrameMetrics indexKeyToken none 500 2).1._config =
      freshVAState._config ∧
    ((freshVAState.onUpdate 0 0 10 fullFrameMetrics indexKeyToken none 500 2).1._lastUpdateTime =
        freshVAState._lastUpdateTime ∨
      (freshVAState._lastUpdateTime = 0 ∧ (fullFrameMetrics 0).isSome = true ∧
        (freshVAState.onUpdate 0 0 10 fullFrameMetrics indexKeyToken none 500 2).1._lastUpdateTime =
          500)) :=
  noChange_discard_effects freshVAState 0 0 10 fullFrameMetrics indexKeyToken none 500 2
    (by norm_num [ViewabilityHelper.onUpdate, initLastUpdateTime, updateElapsedOf,
      latchInteraction, onUpdateBody, scanResultOf, freshVAState, viewAreaZeroConfig,
      fullFrameMetrics]; simp)

/-! ### C5 -/

lemma scanViewable_nil (vam : Bool) (thr so vh : ℚ) (f : Nat → Option FrameMetrics) (fv : Int) :
    scanViewable vam thr so vh f [] fv = [] := rfl

lemma scanViewable_cons_none (vam : Bool) (thr so vh : ℚ) (f : Nat → Option FrameMetrics)
    (idx : Nat) (rest : List Nat) (fv : Int) (h : f idx = none) :
    scanViewable vam thr so vh f (idx :: rest) fv = scanViewable vam thr so vh f rest fv := by
  simp [scanViewable, h]

lemma scanViewable_cons_viewable (vam : Bool) (thr so vh : ℚ) (f : Nat → Option FrameMetrics)
    (idx : Nat) (rest : List Nat) (fv : Int) (m : FrameMetrics) (h : f idx = some m)
    (ho : overlapsViewport so vh m = true)
    (hv : _isViewable vam thr (itemTop so m) (itemBottom so m) vh m.length = true) :
    scanViewable vam thr so vh f (idx :: rest) fv =
      idx :: scanViewable vam thr so vh f rest (Int.ofNat idx) := by
  simp [scanViewable, h, ho, hv]

lemma scanViewable_cons_notViewable (vam : Bool) (thr so vh : ℚ) (f : Nat → Option FrameMetrics)
    (idx : Nat) (rest : List Nat) (fv : Int) (m : FrameMetrics) (h : f idx = some m)
    (ho : overlapsViewport so vh m = true)
    (hv : _isViewable vam thr (itemTop so m) (itemBottom so m) vh m.length = false) :
    scanViewable vam thr so vh f (idx :: rest) fv =
      scanViewable vam thr so vh f rest (Int.ofNat idx) := by
  simp [scanViewable, h, ho, hv]

lemma scanViewable_cons_break (vam : Bool) (thr so vh : ℚ) (f : Nat → Option FrameMetrics)
    (idx : Nat) (rest : List Nat) (fv : Int) (m : FrameMetrics) (h : f idx = some m)
    (ho : overlapsViewport so vh m = false) (hfv : 0 ≤ fv) :
    scanViewable vam thr so vh f (idx :: rest) fv = [] := by
  simp [scanViewable, h, ho, hfv]

lemma scanViewable_cons_skip (vam : Bool) (thr so vh : ℚ) (f : Nat → Option FrameMetrics)
    (idx : Nat) (rest : List Nat) (fv : Int) (m : FrameMetrics) (h : f idx = some m)
    (ho : overlapsViewport so vh m = false) (hfv : ¬ 0 ≤ fv) :
    scanViewable vam thr so vh f (idx :: rest) fv = scanViewable vam thr so vh f rest fv := by
  simp [scanViewable, h, ho, hfv]

/-- Index `k` has metrics and overlaps the viewport. -/
def measuredOverlap (so vh : ℚ) (f : Nat → Option FrameMetrics) (k : Nat) : Prop :=
  ∃ m, f k = some m ∧ overlapsViewport so vh m = true

/-- Index `j` has metrics and does NOT overlap the viewport. -/
def measuredNonOverlap (so vh : ℚ) (f : Nat → Option FrameMetrics) (j : Nat) : Prop :=
  ∃ m, f j = some m ∧ overlapsViewport so vh m = false

/-- Index `i` has metrics, overlaps the viewport and passes the viewability
test. -/
def measuredViewable (vam : Bool) (thr so vh : ℚ) (f : Nat → Option FrameMetrics) (i : Nat) :
    Prop :=
  ∃ m, f i = some m ∧ overlapsViewport so vh m = true ∧
    _isViewable vam thr (itemTop so m) (itemBottom so m) vh m.length = true

/-- The scan starting at `first` with `firstVisible = fv` breaks before
reaching `i`: some measured non-overlapping `j < i` occurs after visibility
has begun (either carried in via `fv ≥ 0` or witnessed by an earlier measured
overlapping `k`). -/
def scanBlocked (so vh : ℚ) (f : Nat → Option FrameMetrics) (first : Nat) (fv : Int) (i : Nat) :
    Prop :=
  ∃ j, first ≤ j ∧ j < i ∧ measuredNonOverlap so vh f j ∧
    (0 ≤ fv ∨ ∃ k, first ≤ k ∧ k < j ∧ measuredOverlap so vh f k)

/-- Membership characterization of the scan loop over `[first, first+n)`. -/
lemma scanViewable_mem (vam : Bool) (thr so vh : ℚ) (f : Nat → Option FrameMetrics) :
    ∀ (n first : Nat) (fv : Int) (i : Nat),
      i ∈ scanViewable vam thr so vh f (idxRange first n) fv ↔
        (first ≤ i ∧ i < first + n ∧ measuredViewable vam thr so vh f i ∧
          ¬ scanBlocked so vh f first fv i) := by
  intro n
  induction n with
  | zero =>
    intro first fv i
    rw [idxRange, scanViewable_nil]
    simp only [List.not_mem_nil, false_iff]
    rintro ⟨h1, h2, -, -⟩
    omega
  | succ n ih =>
    intro first fv i
    rw [idxRange]
    cases hf : f first with
    | none =>
      rw [scanViewable_cons_none vam thr so vh f first _ fv hf, ih]
      constructor
      · rintro ⟨h1, h2, hmv, hnb⟩
        refine ⟨by omega, by omega, hmv, ?_⟩
        rintro ⟨j, hj1, hj2, hmn, hseen⟩
        have hjne : j ≠ first := by
          rintro rfl
          obtain ⟨m, hm, -⟩ := hmn
          rw [hf] at hm
          exact Option.noConfusion hm
        refine hnb ⟨j, by omega, hj2, hmn, ?_⟩
        rcases hseen with h | ⟨k, hk1, hk2, hmo⟩
        · exact Or.inl h
        · have hkne : k ≠ first := by
            rintro rfl
            obtain ⟨m, hm, -⟩ := hmo
            rw [hf] at hm
            exact Option.noConfusion hm
          exact Or.inr ⟨k, by omega, hk2, hmo⟩
      · rintro ⟨h1, h2, hmv, hnb⟩
        have hine : i ≠ first := by
          rintro rfl
          obtain ⟨m, hm, -⟩ := hmv
          rw [hf] at hm
          exact Option.noConfusion hm
        refine ⟨by omega, by omega, hmv, ?_⟩
        rintro ⟨j, hj1, hj2, hmn, hseen⟩
        refine hnb ⟨j, by omega, hj2, hmn, ?_⟩
        rcases hseen with h | ⟨k, hk1, hk2, hmo⟩
        · exact Or.inl h
        · exact Or.inr ⟨k, by omega, hk2, hmo⟩
    | some m =>
      cases ho : overlapsViewport so vh m with
      | false =>
        by_cases hfv : 0 ≤ fv
        · rw [scanViewable_cons_break vam thr so vh f first _ fv m hf ho hfv]
          simp only [List.not_mem_nil, false_iff]
          rintro ⟨h1, h2, hmv, hnb⟩
          rcases Nat.eq_or_lt_of_le h1 with heq | hlt
          · obtain ⟨m2, hm2, ho2, -⟩ := hmv
            rw [← heq, hf] at hm2
            cases hm2
            rw [ho] at ho2
            exact Bool.noConfusion ho2
          · exact hnb ⟨first, le_refl _, hlt, ⟨m, hf, ho⟩, Or.inl hfv⟩
        · rw [scanViewable_cons_skip vam thr so vh f first _ fv m hf ho hfv, ih]
          constructor
          · rintro ⟨h1, h2, hmv, hnb⟩
            refine ⟨by omega, by omega, hmv, ?_⟩
            rintro ⟨j, hj1, hj2, hmn, hseen⟩
            rcases hseen with h | ⟨k, hk1, hk2, hmo⟩
            · exact hfv h
            · have hkne : k ≠ first := by
                rintro rfl
                obtain ⟨m2, hm2, ho2⟩ := hmo
                rw [hf] at hm2
                cases hm2
                rw [ho] at ho2
                exact Bool.noConfusion ho2
              have hjne : j ≠ first := by
                rintro rfl
                omega
              exact hnb ⟨j, by omega, hj2, hmn, Or.inr ⟨k, by omega, hk2, hmo⟩⟩
          · rintro ⟨h1, h2, hmv, hnb⟩
            have hine : i ≠ first := by
              rintro rfl
              obtain ⟨m2, hm2, ho2, -⟩ := hmv
              rw [hf] at hm2
              cases hm2
              rw [ho] at ho2
              exact Bool.noConfusion ho2
            refine ⟨by omega, by omega, hmv, ?_⟩
            rintro ⟨j, hj1, hj2, hmn, hseen⟩
            rcases hseen with h | ⟨k, hk1, hk2, hmo⟩
            · exact hfv h
            · exact hnb ⟨j, by omega, hj2, hmn, Or.inr ⟨k, by omega, hk2, hmo⟩⟩
      | true =>
        have hmo_first : measuredOverlap so vh f first := ⟨m, hf, ho⟩
        have hblk : ∀ i', first < i' →
            (scanBlocked so vh f (first + 1) (Int.ofNat first) i' ↔
              scanBlocked so vh f first fv i') := by
          intro i' hi'
          constructor
          · rintro ⟨j, hj1, hj2, hmn, -⟩
            exact ⟨j, by omega, hj2, hmn, Or.inr ⟨first, le_refl _, by omega, hmo_first⟩⟩
          · rintro ⟨j, hj1, hj2, hmn, -⟩
            have hjne : j ≠ first := by
              rintro rfl
              obtain ⟨m2, hm2, ho2⟩ := hmn
              rw [hf] at hm2
              cases hm2
              rw [ho] at ho2
              exact Bool.noConfusion ho2
            exact ⟨j, by omega, hj2, hmn, Or.inl (Int.ofNat_nonneg first)⟩
        cases hv : _isViewable vam thr (itemTop so m) (itemBottom so m) vh m.length with
        | true =>
          rw [scanViewable_cons_viewable vam thr so vh f first _ fv m hf ho hv,
            List.mem_cons, ih]
          constructor
          · rintro (rfl | ⟨h1, h2, hmv, hnb⟩)
            · refine ⟨le_refl _, by omega, ⟨m, hf, ho, hv⟩, ?_⟩
              rintro ⟨j, hj1, hj2, -, -⟩
              omega
            · refine ⟨by omega, by omega, hmv, ?_⟩
              intro hb
              exact hnb ((hblk i (by omega)).2 hb)
          · rintro ⟨h1, h2, hmv, hnb⟩
            rcases Nat.eq_or_lt_of_le h1 with heq | hlt
            · exact Or.inl heq.symm
            · exact Or.inr ⟨by omega, by omega, hmv, fun hb => hnb ((hblk i hlt).1 hb)⟩
        | false =>
          rw [scanViewable_cons_notViewable vam thr so vh f first _ fv m hf ho hv, ih]
          constructor
          · rintro ⟨h1, h2, hmv, hnb⟩
            refine ⟨by omega, by omega, hmv, ?_⟩
            intro hb
            exact hnb ((hblk i (by omega)).2 hb)
          · rintro ⟨h1, h2, hmv, hnb⟩
            have hine : i ≠ first := by
              rintro rfl
              obtain ⟨m2, hm2, -, hv2⟩ := hmv
              rw [hf] at hm2
              cases hm2
              rw [hv] at hv2
              exact Bool.noConfusion hv2
            exact ⟨by omega, by omega, hmv, fun hb => hnb ((hblk i (by omega)).1 hb)⟩

/-- The scan output is strictly ascending. -/
lemma scanViewable_sorted (vam : Bool) (thr so vh : ℚ) (f : Nat → Option FrameMetrics) :
    ∀ (n first : Nat) (fv : Int),
      List.Sorted (· < ·) (scanViewable vam thr so vh f (idxRange first n) fv) := by
  intro n
  induction n with
  | zero =>
    intro first fv
    rw [idxRange, scanViewable_nil]
    exact List.sorted_nil
  | succ n ih =>
    intro first fv
    rw [idxRange]
    cases hf : f first with
    | none =>
      rw [scanViewable_cons_none vam thr so vh f first _ fv hf]
      exact ih _ _
    | some m =>
      cases ho : overlapsViewport so vh m with
      | false =>
        by_cases hfv : 0 ≤ fv
        · rw [scanViewable_cons_break vam thr so vh f first _ fv m hf ho hfv]
          exact List.sorted_nil
        · rw [scanViewable_cons_skip vam thr so vh f first _ fv m hf ho hfv]
          exact ih _ _
      | true =>
        cases hv : _isViewable vam thr (itemTop so m) (itemBottom so m) vh m.length with
        | true =>
          rw [scanViewable_cons_viewable vam thr so vh f first _ fv m hf ho hv,
            List.sorted_cons]
          refine ⟨?_, ih _ _⟩
          intro b hb
          have := (scanViewable_mem vam thr so vh f n (first + 1) (Int.ofNat first) b).1 hb
          omega
        | false =>
          rw [scanViewable_cons_notViewable vam thr so vh f first _ fv m hf ho hv]
          exact ih _ _

/-- Claim C5: for `itemCount > 0` (and a validly configured call), the scan
returns an ascending sequence containing exactly the indices of `[first,
last]` (default `[0, itemCount-1]`) that are measured, overlap the viewport
and pass the viewability test, and that are not preceded (within the range)
by a measured non-overlapping index coming after some measured overlapping
index — absent metrics are skipped without terminating the scan, and the scan
stops at the first measured non-overlapping index after visibility has
begun. -/
theorem computeViewableItems_characterization (config : ViewabilityConfig) (itemCount : Nat)
    (scrollOffset viewportHeight : ℚ) (f : Nat → Option FrameMetrics) (rr : Option RenderRange)
    (hc : exactlyOneThreshold config = true) (hn : 0 < itemCount)
    (hr : (rr.getD { first := 0, last := itemCount - 1 }).last < itemCount) :
    ∃ l, ViewabilityHelper.computeViewableItems config itemCount scrollOffset viewportHeight f
        rr = .ok l ∧
      List.Sorted (· < ·) l ∧
      (∀ i, i ∈ l ↔
        ((rr.getD { first := 0, last := itemCount - 1 }).first ≤ i ∧
         i ≤ (rr.getD { first := 0, last := itemCount - 1 }).last ∧
         measuredViewable (configViewAreaMode config) (configThreshold config)
           scrollOffset viewportHeight f i ∧
         ¬∃ j, (rr.getD { first := 0, last := itemCount - 1 }).first ≤ j ∧ j < i ∧
           measuredNonOverlap scrollOffset viewportHeight f j ∧
           ∃ k, (rr.getD { first := 0, last := itemCount - 1 }).first ≤ k ∧ k < j ∧
             measuredOverlap scrollOffset viewportHeight f k)) := by
  have heq : ViewabilityHelper.computeViewableItems config itemCount scrollOffset viewportHeight
      f rr =
      .ok (scanViewable (configViewAreaMode config) (configThreshold config) scrollOffset
        viewportHeight f
        (idxRange (rr.getD { first := 0, last := itemCount - 1 }).first
          ((rr.getD { first := 0, last := itemCount - 1 }).last + 1 -
            (rr.getD { first := 0, last := itemCount - 1 }).first)) (-1)) := by
    simp only [ViewabilityHelper.computeViewableItems, threshold_invariant_eq, hc]
    rw [if_neg (by simp), if_neg (by omega), if_neg (by simp [hr])]
    rfl
  rw [heq]
  refine ⟨_, rfl, scanViewable_sorted _ _ _ _ _ _ _ _, ?_⟩
  intro i
  rw [scanViewable_mem]
  unfold scanBlocked
  constructor
  · rintro ⟨h1, h2, hmv, hnb⟩
    refine ⟨h1, by omega, hmv, ?_⟩
    rintro ⟨j, hj1, hj2, hmn, hk⟩
    exact hnb ⟨j, hj1, hj2, hmn, Or.inr hk⟩
  · rintro ⟨h1, h2, hmv, hnb⟩
    refine ⟨h1, by omega, hmv, ?_⟩
    rintro ⟨j, hj1, hj2, hmn, hseen⟩
    rcases hseen with h | hk
    · exact absurd h (by omega)
    · exact hnb ⟨j, hj1, hj2, hmn, hk⟩

/-- Witness for C5 at a concrete 5-item scan. -/
theorem computeViewableItems_characterization_witness :
    ∃ l, ViewabilityHelper.computeViewableItems viewAreaZeroConfig 5 0 25 fullFrameMetrics
        none = .ok l ∧
      List.Sorted (· < ·) l ∧
      (∀ i, i ∈ l ↔
        (((none : Option RenderRange).getD { first := 0, last := 5 - 1 }).first ≤ i ∧
         i ≤ ((none : Option RenderRange).getD { first := 0, last := 5 - 1 }).last ∧
         measuredViewable (configViewAreaMode viewAreaZeroConfig)
           (configThreshold viewAreaZeroConfig) 0 25 fullFrameMetrics i ∧
         ¬∃ j, ((none : Option RenderRange).getD { first := 0, last := 5 - 1 }).first ≤ j ∧
           j < i ∧ measuredNonOverlap 0 25 fullFrameMetrics j ∧
           ∃ k, ((none : Option RenderRange).getD { first := 0, last := 5 - 1 }).first ≤ k ∧
             k < j ∧ measuredOverlap 0 25 fullFrameMetrics k)) :=
  computeViewableItems_characterization viewAreaZeroConfig 5 0 25 fullFrameMetrics none
    rfl (by omega) (by decide)
